import Mathlib

/-!
# TubeScreamer TS808 processor

A shallow embedding of `Source/pedals/TubeScreamer/TSProcessor.h` and theorems about it.

* Single-precision and double-precision numbers are carried by their IEEE-754 bit patterns;
  comparison, multiplication, division and the double-to-single conversion follow
  IEEE-754 (round to nearest, ties to even).
* `ClippingStage`, `ToneStage` (dsp/ClippingStage.h, dsp/ToneStage.h) and
  `juce::dsp::Oversampling` are collaborators of the processor: the embedding is
  parametric in their state types and member functions.
* An audio buffer is the list of its channels, a channel the list of its samples, so a
  channel pointer together with the sample count is the channel list itself.
* Indexing a two-element stage array at an index of 2 or more is undefined behaviour in
  C++; the embedding makes it the explicit result `Fault.outOfBounds`.
-/

namespace TubeScreamer

/-! ## Machine numbers -/

/-- IEEE-754 binary32 (`float`), as its 32-bit pattern. -/
structure F32 where
  bits : Nat
deriving DecidableEq, Repr

namespace F32

/-- Sign bit (bit 31). -/
def signBit (x : F32) : Nat := x.bits / 2 ^ 31 % 2

/-- Biased exponent field (bits 23 to 30). -/
def expField (x : F32) : Nat := x.bits / 2 ^ 23 % 256

/-- Fraction field (bits 0 to 22). -/
def manField (x : F32) : Nat := x.bits % 2 ^ 23

/-- Not-a-number: exponent field all ones, fraction nonzero. -/
def isNaN (x : F32) : Bool := x.expField == 255 && x.manField != 0

/-- Infinity: exponent field all ones, fraction zero. -/
def isInf (x : F32) : Bool := x.expField == 255 && x.manField == 0

/-- The pattern without its sign bit; monotone in the absolute value. -/
def magnitude (x : F32) : Nat := x.bits % 2 ^ 31

/-- Positive or negative zero. -/
def isZero (x : F32) : Bool := x.magnitude == 0

/-- Signed magnitude: an integer that orders the non-NaN values as IEEE-754 does
(both zeros map to 0). -/
def key (x : F32) : Int := if x.signBit = 1 then -(x.magnitude : Int) else x.magnitude

/-- The C++ comparison `a < b` on floats: false as soon as one side is NaN. -/
def lt (a b : F32) : Bool := !a.isNaN && !b.isNaN && decide (a.key < b.key)

/-- The C++ comparison `a <= b` on floats. -/
def le (a b : F32) : Bool := !a.isNaN && !b.isNaN && decide (a.key ≤ b.key)

/-- The C++ comparison `a == b` on floats. -/
def eq (a b : F32) : Bool := !a.isNaN && !b.isNaN && decide (a.key = b.key)

/-- Significand of a finite value (hidden bit included for normal numbers). -/
def sig (x : F32) : Nat := if x.expField = 0 then x.manField else 2 ^ 23 + x.manField

/-- Binary exponent of a finite value above the smallest one: the value is
`sig * 2 ^ scale * 2 ^ (-149)`. -/
def scale (x : F32) : Nat := x.expField - 1

/-- Absolute value of a finite number in units of `2 ^ (-149)` (always an integer). -/
def units (x : F32) : Nat := x.sig * 2 ^ x.scale

/-- Exact rational value of a finite number. -/
def toRat (x : F32) : ℚ :=
  (if x.signBit = 1 then -1 else 1) * (x.units : ℚ) / (2 : ℚ) ^ 149

/-- Number of binary digits of `n` (the first argument bounds the recursion). -/
def bitLength : Nat → Nat → Nat
  | 0, _ => 0
  | fuel + 1, n => if n = 0 then 0 else bitLength fuel (n / 2) + 1

/-- The quiet NaN produced by invalid operations. -/
def qNaN : F32 := ⟨0x7FC00000⟩

/-- Infinity with sign bit `s`. -/
def inf (s : Nat) : F32 := ⟨s * 2 ^ 31 + 0x7F800000⟩

/-- Zero with sign bit `s`. -/
def signedZero (s : Nat) : F32 := ⟨s * 2 ^ 31⟩

/-- Round the exact non-negative quantity `num / den`, given in units of `2 ^ (-149)`,
to the nearest binary32 number with sign bit `s`; ties go to the even significand and
overflow goes to infinity. -/
def round (s num den : Nat) : F32 :=
  let k := bitLength 4096 (num / den) - 24
  let d := den * 2 ^ k
  let q := num / d
  let r := num % d
  let q1 := if 2 * r > d ∨ (2 * r = d ∧ q % 2 = 1) then q + 1 else q
  let k1 := if q1 = 2 ^ 24 then k + 1 else k
  let q2 := if q1 = 2 ^ 24 then 2 ^ 23 else q1
  if q2 < 2 ^ 23 then ⟨s * 2 ^ 31 + q2⟩
  else if k1 + 1 ≥ 255 then inf s
  else ⟨s * 2 ^ 31 + (k1 + 1) * 2 ^ 23 + (q2 - 2 ^ 23)⟩

/-- The C++ product `a * b` on floats. -/
def mul (a b : F32) : F32 :=
  let s := (a.signBit + b.signBit) % 2
  if a.isNaN || b.isNaN then qNaN
  else if a.isInf || b.isInf then (if a.isZero || b.isZero then qNaN else inf s)
  else round s (a.units * b.units) (2 ^ 149)

/-- The C++ quotient `a / b` on floats. -/
def div (a b : F32) : F32 :=
  let s := (a.signBit + b.signBit) % 2
  if a.isNaN || b.isNaN then qNaN
  else if a.isInf then (if b.isInf then qNaN else inf s)
  else if b.isInf then signedZero s
  else if b.isZero then (if a.isZero then qNaN else inf s)
  else round s (a.units * 2 ^ 149) b.units

/-- The literal `0.0f`. -/
def zero : F32 := ⟨0x00000000⟩

/-- The literal `1.0f`. -/
def one : F32 := ⟨0x3F800000⟩

/-- The literal `2.0f`. -/
def two : F32 := ⟨0x40000000⟩

/-- The literal `5.0f`. -/
def five : F32 := ⟨0x40A00000⟩

/-- The literal `7.0f`. -/
def seven : F32 := ⟨0x40E00000⟩

/-- The literal `10.0f`. -/
def ten : F32 := ⟨0x41200000⟩

/-- The literal `3.0f`. -/
def three : F32 := ⟨0x40400000⟩

/-- The literal `9.0f`. -/
def nine : F32 := ⟨0x41100000⟩

/-- The literal `-5.0f`. -/
def minusFive : F32 := ⟨0xC0A00000⟩

/-- The literal `50.0f`. -/
def fifty : F32 := ⟨0x42480000⟩

/-- The call `std::pow(2.0f, (float)n)` for an unsigned integer `n`: a power of the radix,
exact up to `n = 127` and infinite beyond. -/
def pow2 (n : Nat) : F32 := if n ≤ 127 then ⟨(127 + n) * 2 ^ 23⟩ else inf 0

end F32

/-- IEEE-754 binary64 (`double`), as its 64-bit pattern. -/
structure F64 where
  bits : Nat
deriving DecidableEq, Repr

namespace F64

/-- Sign bit (bit 63). -/
def signBit (x : F64) : Nat := x.bits / 2 ^ 63 % 2

/-- Biased exponent field (bits 52 to 62). -/
def expField (x : F64) : Nat := x.bits / 2 ^ 52 % 2048

/-- Fraction field (bits 0 to 51). -/
def manField (x : F64) : Nat := x.bits % 2 ^ 52

/-- Not-a-number. -/
def isNaN (x : F64) : Bool := x.expField == 2047 && x.manField != 0

/-- Infinity. -/
def isInf (x : F64) : Bool := x.expField == 2047 && x.manField == 0

/-- Significand of a finite value. -/
def sig (x : F64) : Nat := if x.expField = 0 then x.manField else 2 ^ 52 + x.manField

/-- Binary exponent of a finite value above the smallest one. -/
def scale (x : F64) : Nat := x.expField - 1

/-- Absolute value of a finite number in units of `2 ^ (-1074)`. -/
def units (x : F64) : Nat := x.sig * 2 ^ x.scale

/-- Exact rational value of a finite number. -/
def toRat (x : F64) : ℚ :=
  (if x.signBit = 1 then -1 else 1) * (x.units : ℚ) / (2 : ℚ) ^ 1074

/-- The C++ conversion `(float)x` of a double. -/
def toF32 (x : F64) : F32 :=
  if x.isNaN then F32.qNaN
  else if x.isInf then F32.inf x.signBit
  else F32.round x.signBit x.units (2 ^ 925)

end F64

/-- Conversion of a `uint32` value to `int` (32-bit two's complement). -/
def toInt32 (n : Nat) : Int :=
  if n % 2 ^ 32 < 2 ^ 31 then ((n % 2 ^ 32 : Nat) : Int) else ((n % 2 ^ 32 : Nat) : Int) - 2 ^ 32

/-- Conversion of an `int` to `size_t` (64-bit unsigned). -/
def toSizeT (i : Int) : Nat := (i % 2 ^ 64).toNat

/-! ## JUCE helpers used by the processor -/

/-- The template `juce::jlimit (lowerLimit, upperLimit, valueToConstrain)`:
`valueToConstrain < lowerLimit ? lowerLimit
   : (upperLimit < valueToConstrain ? upperLimit : valueToConstrain)`. -/
def jlimit (lowerLimit upperLimit valueToConstrain : F32) : F32 :=
  if valueToConstrain.lt lowerLimit then lowerLimit
  else if upperLimit.lt valueToConstrain then upperLimit
  else valueToConstrain

/-- An audio buffer, or a block viewing one: the list of its channels. -/
abbrev AudioBuffer := List (List F32)

/-- What `juce::AudioBuffer::applyGain (gain)` does to one sample: nothing for a gain of 1,
clearing for a gain of 0, multiplication otherwise. (The buffer is never flagged clear at
that point of `process`: building the block view reset the flag. Recent JUCE releases
also leave the sample alone for a gain within one rounding step of 1.) -/
def gainSample (gain x : F32) : F32 :=
  if gain.eq F32.one then x
  else if gain.eq F32.zero then F32.zero
  else F32.mul x gain

/-- The member `juce::AudioBuffer::applyGain (gain)`: the same gain on every sample of every
channel. -/
def applyGain (buffer : AudioBuffer) (gain : F32) : AudioBuffer :=
  buffer.map (fun channel => channel.map (gainSample gain))

/-- The struct `juce::dsp::ProcessSpec`. -/
structure ProcessSpec where
  sampleRate : F64
  maximumBlockSize : Nat
  numChannels : Nat
deriving DecidableEq, Repr

/-! ## The collaborators of the processor -/

/-- Member functions of `ClippingStage` over a state type `C`. -/
structure ClippingStage (C : Type) where
  construct : C
  prepare : C → F32 → C
  setDrive : C → F32 → C
  reset : C → C
  processSample : C → F32 → C × F32

/-- Member functions of `ToneStage` over a state type `T`; `processBlock` receives the
samples of one channel and returns them filtered. -/
structure ToneStage (T : Type) where
  construct : T
  prepare : T → F32 → T
  setTone : T → F32 → T
  reset : T → T
  processBlock : T → List F32 → T × List F32

/-- Filter kinds of `juce::dsp::Oversampling`. -/
inductive FilterType where
  | filterHalfBandFIREquiripple
  | filterHalfBandPolyphaseIIR
deriving DecidableEq, Repr

/-- Member functions of `juce::dsp::Oversampling<float>` over a state type `O`.
`processSamplesUp` returns the oversampled block; `processSamplesDown` receives the
oversampled block as the clipping loop left it and the block it writes into. -/
structure Oversampling (O : Type) where
  construct : Nat → Nat → FilterType → O
  initProcessing : O → Nat → O
  reset : O → O
  processSamplesUp : O → AudioBuffer → O × AudioBuffer
  processSamplesDown : O → AudioBuffer → AudioBuffer → O × AudioBuffer

/-- The three collaborators together. -/
structure Deps (C T O : Type) where
  clipping : ClippingStage C
  tone : ToneStage T
  over : Oversampling O

/-- A C array of two elements. -/
structure Array2 (α : Type) where
  ch0 : α
  ch1 : α
deriving DecidableEq, Repr

/-- Read `a[i]`; `none` outside the array. -/
def Array2.get? {α : Type} (a : Array2 α) : Nat → Option α
  | 0 => some a.ch0
  | 1 => some a.ch1
  | _ => none

/-- Write `a[i] = v`. -/
def Array2.set {α : Type} (a : Array2 α) (i : Nat) (v : α) : Array2 α :=
  match i with
  | 0 => { a with ch0 := v }
  | 1 => { a with ch1 := v }
  | _ => a

/-- Outcome of undefined behaviour in the embedded code. -/
inductive Fault where
  | outOfBounds
deriving DecidableEq, Repr

/-! ## TSProcessor -/

/-- The constant `oversampleFactor`. -/
def oversampleFactor : Nat := 1

/-- Data members of `TSProcessor`. -/
structure TSProcessor (C T O : Type) where
  sampleRate : F64
  maxBlockSize : Int
  numChannels : Int
  clippingStage : Array2 C
  toneStage : Array2 T
  oversampling : O
  currentDrive : F32
  currentTone : F32
  currentLevel : F32
deriving DecidableEq, Repr

variable {C T O : Type}

/-- A freshly constructed processor: the default member initialisers. -/
def TSProcessor.construct (deps : Deps C T O) : TSProcessor C T O where
  sampleRate := ⟨0x40E5888000000000⟩
  maxBlockSize := 512
  numChannels := 2
  clippingStage := ⟨deps.clipping.construct, deps.clipping.construct⟩
  toneStage := ⟨deps.tone.construct, deps.tone.construct⟩
  oversampling := deps.over.construct 2 oversampleFactor FilterType.filterHalfBandPolyphaseIIR
  currentDrive := F32.two
  currentTone := F32.five
  currentLevel := F32.seven

/-- The member `prepare`. -/
def prepare (deps : Deps C T O) (s : TSProcessor C T O) (spec : ProcessSpec) :
    TSProcessor C T O :=
  let sampleRate := spec.sampleRate
  let maxBlockSize := toInt32 spec.maximumBlockSize
  let numChannels := toInt32 spec.numChannels
  let oversampling := deps.over.initProcessing s.oversampling (toSizeT maxBlockSize)
  let oversampledRate := F32.mul sampleRate.toF32 (F32.pow2 oversampleFactor)
  let prepClip := fun c => deps.clipping.setDrive (deps.clipping.prepare c oversampledRate) s.currentDrive
  let prepTone := fun t => deps.tone.setTone (deps.tone.prepare t sampleRate.toF32) s.currentTone
  { s with
    sampleRate := sampleRate
    maxBlockSize := maxBlockSize
    numChannels := numChannels
    oversampling := oversampling
    clippingStage := ⟨prepClip s.clippingStage.ch0, prepClip s.clippingStage.ch1⟩
    toneStage := ⟨prepTone s.toneStage.ch0, prepTone s.toneStage.ch1⟩ }

/-- The member `reset`. -/
def reset (deps : Deps C T O) (s : TSProcessor C T O) : TSProcessor C T O :=
  { s with
    oversampling := deps.over.reset s.oversampling
    clippingStage := ⟨deps.clipping.reset s.clippingStage.ch0, deps.clipping.reset s.clippingStage.ch1⟩
    toneStage := ⟨deps.tone.reset s.toneStage.ch0, deps.tone.reset s.toneStage.ch1⟩ }

/-- The member `setDrive`. -/
def setDrive (s : TSProcessor C T O) (drive : F32) : TSProcessor C T O :=
  { s with currentDrive := jlimit F32.zero F32.ten drive }

/-- The member `setTone`. -/
def setTone (s : TSProcessor C T O) (tone : F32) : TSProcessor C T O :=
  { s with currentTone := jlimit F32.zero F32.ten tone }

/-- The member `setLevel`. -/
def setLevel (s : TSProcessor C T O) (level : F32) : TSProcessor C T O :=
  { s with currentLevel := jlimit F32.zero F32.ten level }

/-- The member `getCurrentDrive`. -/
def getCurrentDrive (s : TSProcessor C T O) : F32 := s.currentDrive

/-- The member `getCurrentTone`. -/
def getCurrentTone (s : TSProcessor C T O) : F32 := s.currentTone

/-- The member `getCurrentLevel`. -/
def getCurrentLevel (s : TSProcessor C T O) : F32 := s.currentLevel

/-- The inner loop of the clipping stage,
`for (n = ...; n < numSamples; ++n) x[n] = stage.processSample(x[n])`,
with `count` iterations left from index `n`. -/
def sampleLoop (cs : ClippingStage C) : Nat → Nat → C → List F32 → C × List F32
  | 0, _, c, x => (c, x)
  | count + 1, n, c, x =>
    match x[n]? with
    | none => (c, x)
    | some v =>
      let r := cs.processSample c v
      sampleLoop cs count (n + 1) r.1 (x.set n r.2)

/-- The channel loop of the clipping stage,
`for (ch = ...; ch < osBlock.getNumChannels(); ++ch)`, with `count` iterations left
from index `ch`: push the drive into `clippingStage[ch]`, then run the sample loop on
channel `ch` of the oversampled block. -/
def clipLoop (cs : ClippingStage C) (currentDrive : F32) :
    Nat → Nat → Array2 C → AudioBuffer → Except Fault (Array2 C × AudioBuffer)
  | 0, _, stages, osBlock => .ok (stages, osBlock)
  | count + 1, ch, stages, osBlock =>
    match stages.get? ch with
    | none => .error Fault.outOfBounds
    | some c =>
      let x := osBlock.getD ch []
      let r := sampleLoop cs x.length 0 (cs.setDrive c currentDrive) x
      clipLoop cs currentDrive count (ch + 1) (stages.set ch r.1) (osBlock.set ch r.2)

/-- The channel loop of the tone stage,
`for (ch = ...; ch < buffer.getNumChannels(); ++ch)`, with `count` iterations left from
index `ch`: push the tone into `toneStage[ch]`, then filter channel `ch` in place. -/
def toneLoop (ts : ToneStage T) (currentTone : F32) :
    Nat → Nat → Array2 T → AudioBuffer → Except Fault (Array2 T × AudioBuffer)
  | 0, _, stages, buffer => .ok (stages, buffer)
  | count + 1, ch, stages, buffer =>
    match stages.get? ch with
    | none => .error Fault.outOfBounds
    | some t =>
      let x := buffer.getD ch []
      let r := ts.processBlock (ts.setTone t currentTone) x
      toneLoop ts currentTone count (ch + 1) (stages.set ch r.1) (buffer.set ch r.2)

/-- The member `process`: the processor after the call and the buffer as it was left.
`processSamplesDown` writes into the block that views `buffer`, so the tone loop runs over
the channel count of `buffer` itself. -/
def process (deps : Deps C T O) (s : TSProcessor C T O) (buffer : AudioBuffer) :
    Except Fault (TSProcessor C T O × AudioBuffer) :=
  let up := deps.over.processSamplesUp s.oversampling buffer
  match clipLoop deps.clipping s.currentDrive up.2.length 0 s.clippingStage up.2 with
  | .error e => .error e
  | .ok clipped =>
    let down := deps.over.processSamplesDown up.1 clipped.2 buffer
    match toneLoop deps.tone s.currentTone buffer.length 0 s.toneStage down.2 with
    | .error e => .error e
    | .ok toned =>
      let levelGain := F32.div s.currentLevel F32.ten
      .ok ({ s with clippingStage := clipped.1, toneStage := toned.1, oversampling := down.1 },
        applyGain toned.2 levelGain)

/-! ## Sequences of calls -/

/-- One call of the public interface. -/
inductive Call where
  | prepare (spec : ProcessSpec)
  | reset
  | setDrive (drive : F32)
  | setTone (tone : F32)
  | setLevel (level : F32)
  | process (buffer : AudioBuffer)

/-- The processor after one call. -/
def step (deps : Deps C T O) (s : TSProcessor C T O) : Call → Except Fault (TSProcessor C T O)
  | .prepare spec => .ok (prepare deps s spec)
  | .reset => .ok (reset deps s)
  | .setDrive drive => .ok (setDrive s drive)
  | .setTone tone => .ok (setTone s tone)
  | .setLevel level => .ok (setLevel s level)
  | .process buffer =>
    match process deps s buffer with
    | .error e => .error e
    | .ok r => .ok r.1

/-- The processor after a sequence of calls, the first call first. -/
def run (deps : Deps C T O) (s : TSProcessor C T O) : List Call → Except Fault (TSProcessor C T O)
  | [] => .ok s
  | call :: rest =>
    match step deps s call with
    | .error e => .error e
    | .ok s1 => run deps s1 rest

/-- A parameter value lies in the range from 0 to 10. -/
def inRange (v : F32) : Bool := F32.le F32.zero v && F32.le v F32.ten

/-- The call is not a setter called with a NaN. -/
def Call.noNaN : Call → Bool
  | .setDrive v => !v.isNaN
  | .setTone v => !v.isNaN
  | .setLevel v => !v.isNaN
  | _ => true

/-! ## Functional forms of the loops -/

/-- Running `processSample` over the samples in order, the stage state threaded through. -/
def mapSamples (cs : ClippingStage C) : C → List F32 → C × List F32
  | c, [] => (c, [])
  | c, x :: xs =>
    ((mapSamples cs (cs.processSample c x).1 xs).1,
      (cs.processSample c x).2 :: (mapSamples cs (cs.processSample c x).1 xs).2)

/-- The clipping work for one channel: push the drive, then process the samples in order. -/
def clipChannel (cs : ClippingStage C) (drive : F32) (c : C) (x : List F32) : C × List F32 :=
  mapSamples cs (cs.setDrive c drive) x

/-- The tone work for one channel: push the tone, then filter the block. -/
def toneChannel (ts : ToneStage T) (tone : F32) (t : T) (x : List F32) : T × List F32 :=
  ts.processBlock (ts.setTone t tone) x

/-- A per-channel operation applied to the first `count` channels, channel `i` with stage
`i` of a two-element array; more than two channels run out of the array. -/
def perChannel {α : Type} (f : α → List F32 → α × List F32) (stages : Array2 α) :
    Nat → AudioBuffer → Except Fault (Array2 α × AudioBuffer)
  | 0, data => .ok (stages, data)
  | 1, data => .ok (⟨(f stages.ch0 (data.getD 0 [])).1, stages.ch1⟩,
      data.set 0 (f stages.ch0 (data.getD 0 [])).2)
  | 2, data => .ok (⟨(f stages.ch0 (data.getD 0 [])).1, (f stages.ch1 (data.getD 1 [])).1⟩,
      (data.set 0 (f stages.ch0 (data.getD 0 [])).2).set 1 (f stages.ch1 (data.getD 1 [])).2)
  | _ + 3, _ => .error Fault.outOfBounds

/-! ## The pipeline, stage by stage -/

/-- Stage 1: upsample the block. -/
def upsample (deps : Deps C T O) (o : O) (buffer : AudioBuffer) : O × AudioBuffer :=
  deps.over.processSamplesUp o buffer

/-- Stage 2: for each channel of the oversampled block, push the drive into that channel's
clipping stage and run `processSample` over its samples in order. -/
def clipAll (deps : Deps C T O) (drive : F32) (stages : Array2 C) (osBlock : AudioBuffer) :
    Except Fault (Array2 C × AudioBuffer) :=
  perChannel (clipChannel deps.clipping drive) stages osBlock.length osBlock

/-- Stage 3: downsample into the buffer. -/
def downsample (deps : Deps C T O) (o : O) (osBlock buffer : AudioBuffer) : O × AudioBuffer :=
  deps.over.processSamplesDown o osBlock buffer

/-- Stage 4: for each channel of the buffer, push the tone into that channel's tone stage
and filter the channel in place. -/
def toneAll (deps : Deps C T O) (tone : F32) (stages : Array2 T) (channels : Nat)
    (buffer : AudioBuffer) : Except Fault (Array2 T × AudioBuffer) :=
  perChannel (toneChannel deps.tone tone) stages channels buffer

/-- Stage 5: the gain `level / 10` on the whole buffer. -/
def levelStage (level : F32) (buffer : AudioBuffer) : AudioBuffer :=
  applyGain buffer (F32.div level F32.ten)

/-- The five stages composed in order, on the parameters stored in the processor. -/
def pipeline (deps : Deps C T O) (s : TSProcessor C T O) (buffer : AudioBuffer) :
    Except Fault (TSProcessor C T O × AudioBuffer) :=
  (clipAll deps s.currentDrive s.clippingStage (upsample deps s.oversampling buffer).2).bind
    fun clipped =>
  (toneAll deps s.currentTone s.toneStage buffer.length
      (downsample deps (upsample deps s.oversampling buffer).1 clipped.2 buffer).2).bind
    fun toned =>
  .ok ({ s with
          clippingStage := clipped.1
          toneStage := toned.1
          oversampling :=
            (downsample deps (upsample deps s.oversampling buffer).1 clipped.2 buffer).1 },
        levelStage s.currentLevel toned.2)

/-! ## Streaming collaborators -/

/-- An oversampler that treats channel `i` on its own, `same` relating two of its states
that hold the same memory for channel `i`: from such states, on blocks with the same
channel `i`, both stages return the same channel `i` and lead to such states again. -/
def Oversampling.ChannelWise (ov : Oversampling O) (i : Nat) (same : O → O → Prop) : Prop :=
  (∀ o o2 b b2, same o o2 → b[i]? = b2[i]? →
      same (ov.processSamplesUp o b).1 (ov.processSamplesUp o2 b2).1
        ∧ (ov.processSamplesUp o b).2[i]? = (ov.processSamplesUp o2 b2).2[i]?)
    ∧ ∀ o o2 y y2 d d2, same o o2 → y[i]? = y2[i]? → d[i]? = d2[i]? →
      same (ov.processSamplesDown o y d).1 (ov.processSamplesDown o2 y2 d2).1
        ∧ (ov.processSamplesDown o y d).2[i]? = (ov.processSamplesDown o2 y2 d2).2[i]?

/-! ## What the getters are expected to return after a sequence of calls -/

/-- The clamp of the argument of the most recent `setDrive` call of the sequence, or
`current` when the sequence has none. -/
def lastDrive (current : F32) : List Call → F32
  | [] => current
  | Call.setDrive v :: rest => lastDrive (jlimit F32.zero F32.ten v) rest
  | Call.prepare _ :: rest => lastDrive current rest
  | Call.reset :: rest => lastDrive current rest
  | Call.setTone _ :: rest => lastDrive current rest
  | Call.setLevel _ :: rest => lastDrive current rest
  | Call.process _ :: rest => lastDrive current rest

/-- The clamp of the argument of the most recent `setTone` call of the sequence, or
`current` when the sequence has none. -/
def lastTone (current : F32) : List Call → F32
  | [] => current
  | Call.setTone v :: rest => lastTone (jlimit F32.zero F32.ten v) rest
  | Call.prepare _ :: rest => lastTone current rest
  | Call.reset :: rest => lastTone current rest
  | Call.setDrive _ :: rest => lastTone current rest
  | Call.setLevel _ :: rest => lastTone current rest
  | Call.process _ :: rest => lastTone current rest

/-- The clamp of the argument of the most recent `setLevel` call of the sequence, or
`current` when the sequence has none. -/
def lastLevel (current : F32) : List Call → F32
  | [] => current
  | Call.setLevel v :: rest => lastLevel (jlimit F32.zero F32.ten v) rest
  | Call.prepare _ :: rest => lastLevel current rest
  | Call.reset :: rest => lastLevel current rest
  | Call.setDrive _ :: rest => lastLevel current rest
  | Call.setTone _ :: rest => lastLevel current rest
  | Call.process _ :: rest => lastLevel current rest

/-! ## A small concrete instance of the collaborators

One-sample delays for the two stages and a sample-doubling oversampler; each records the
arguments of its `prepare` and parameter calls. Used to evaluate the processor on
concrete inputs. -/

namespace Example

/-- State of the example clipping stage. -/
structure Clip where
  rate : F32
  drive : F32
  z : F32
deriving DecidableEq, Repr

/-- The example clipping stage: a one-sample delay. -/
def clip : ClippingStage Clip where
  construct := ⟨F32.zero, F32.zero, F32.zero⟩
  prepare c rate := { c with rate := rate }
  setDrive c drive := { c with drive := drive }
  reset c := { c with z := F32.zero }
  processSample c x := ({ c with z := x }, c.z)

/-- State of the example tone stage. -/
structure Tone where
  rate : F32
  tone : F32
  z : F32
deriving DecidableEq, Repr

/-- A one-sample delay over a block: returns the last input and the delayed block. -/
def delayBlock : F32 → List F32 → F32 × List F32
  | z, [] => (z, [])
  | z, x :: xs => ((delayBlock x xs).1, z :: (delayBlock x xs).2)

/-- The example tone stage: a one-sample delay. -/
def tone : ToneStage Tone where
  construct := ⟨F32.zero, F32.zero, F32.zero⟩
  prepare t rate := { t with rate := rate }
  setTone t v := { t with tone := v }
  reset t := { t with z := F32.zero }
  processBlock t x := ({ t with z := (delayBlock t.z x).1 }, (delayBlock t.z x).2)

/-- State of the example oversampler; `ready` is set by `initProcessing`. -/
structure Over where
  numChannels : Nat
  factor : Nat
  blockSize : Nat
  ready : Bool
  keep0 : Bool
  keep1 : Bool
deriving DecidableEq, Repr

/-- Every sample twice. -/
def double : List F32 → List F32
  | [] => []
  | x :: xs => x :: x :: double xs

/-- Every second sample; the flag tells whether the next sample is kept. -/
def decimate : Bool → List F32 → Bool × List F32
  | keep, [] => (keep, [])
  | true, x :: xs => ((decimate false xs).1, x :: (decimate false xs).2)
  | false, _ :: xs => decimate true xs

/-- The example oversampler for two channels. Before `initProcessing` it hands out an
empty block and leaves the buffer alone. -/
def over : Oversampling Over where
  construct numChannels factor _ := ⟨numChannels, factor, 0, false, true, true⟩
  initProcessing o blockSize := { o with blockSize := blockSize, ready := true }
  reset o := { o with keep0 := true, keep1 := true }
  processSamplesUp o block :=
    if o.ready then (o, (block.take 2).map double) else (o, [])
  processSamplesDown o osBlock block :=
    if o.ready then
      ({ o with keep0 := (decimate o.keep0 (osBlock.getD 0 [])).1,
                keep1 := (decimate o.keep1 (osBlock.getD 1 [])).1 },
        [(decimate o.keep0 (osBlock.getD 0 [])).2,
          (decimate o.keep1 (osBlock.getD 1 [])).2].take block.length)
    else (o, block)

/-- The example collaborators. -/
def deps : Deps Clip Tone Over := ⟨clip, tone, over⟩

/-- A freshly constructed processor on the example collaborators. -/
def fresh : TSProcessor Clip Tone Over := TSProcessor.construct deps

/-- A usual configuration: 44100 Hz, blocks of at most 512 samples, two channels. -/
def spec : ProcessSpec := ⟨⟨0x40E5888000000000⟩, 512, 2⟩

/-- A configuration with the sample rate 44100.1 Hz, which single precision cannot
represent, and a block size of `2 ^ 31`, which `int` cannot represent. -/
def oddSpec : ProcessSpec := ⟨⟨0x40E5888333333333⟩, 2147483648, 2⟩

/-- The example processor after `prepare` with the usual configuration. -/
def prepared : TSProcessor Clip Tone Over := prepare deps fresh spec

/-- What `process` returns on the example collaborators (the arguments themselves on a
fault). -/
def result (s : TSProcessor Clip Tone Over) (buffer : AudioBuffer) :
    TSProcessor Clip Tone Over × AudioBuffer :=
  match process deps s buffer with
  | .ok r => r
  | .error _ => (s, buffer)

/-- A sequence of calls exercising every member. -/
def calls : List Call :=
  [Call.prepare spec, Call.setDrive F32.fifty, Call.process
    [[F32.one, F32.one, F32.one], [F32.one, F32.two, F32.one]],
    Call.setTone F32.minusFive, Call.reset, Call.process [[F32.one, F32.one, F32.one]]]

/-- Two oversampler states with the same readiness and the same memory for channel 0. -/
def sameZero (o o2 : Over) : Prop := o.ready = o2.ready ∧ o.keep0 = o2.keep0

/-- The prepared example processor with another memory in the stages of channel 1. -/
def other : TSProcessor Clip Tone Over :=
  { prepared with
    clippingStage := ⟨prepared.clippingStage.ch0, ⟨F32.zero, F32.zero, F32.nine⟩⟩
    toneStage := ⟨prepared.toneStage.ch0, ⟨F32.zero, F32.zero, F32.three⟩⟩ }

/-- A stereo buffer with the first channel of `stereo` and another second channel. -/
def stereo2 : AudioBuffer := [[F32.one, F32.one, F32.one], [F32.nine, F32.nine, F32.nine]]

/-- A mono buffer of three samples. -/
def mono : AudioBuffer := [[F32.one, F32.one, F32.one]]

/-- A stereo buffer of three samples per channel. -/
def stereo : AudioBuffer := [[F32.one, F32.one, F32.one], [F32.one, F32.two, F32.one]]

end Example


/-! ## Theorems -/

theorem sampleLoop_append (cs : ClippingStage C) (rest : List F32) :
    ∀ (pre : List F32) (c : C),
      sampleLoop cs rest.length pre.length c (pre ++ rest)
        = ((mapSamples cs c rest).1, pre ++ (mapSamples cs c rest).2) := by
  induction rest with
  | nil => intro pre c; simp [sampleLoop, mapSamples]
  | cons v vs ih =>
    intro pre c
    have h := ih (pre ++ [(cs.processSample c v).2]) (cs.processSample c v).1
    simp only [List.length_append, List.length_singleton, List.append_assoc,
      List.singleton_append] at h
    have hv : (pre ++ v :: vs)[pre.length]? = some v := by
      rw [List.getElem?_append_right (Nat.le_refl _)]; simp
    have hs : ∀ y, (pre ++ v :: vs).set pre.length y = pre ++ y :: vs := by
      intro y; simp
    simp only [List.length_cons, sampleLoop, hv, hs, h, mapSamples]

theorem sampleLoop_eq (cs : ClippingStage C) (c : C) (x : List F32) :
    sampleLoop cs x.length 0 c x = mapSamples cs c x := by
  have h := sampleLoop_append cs x [] c
  simpa using h

theorem getD_set_zero_one (data : AudioBuffer) (y : List F32) :
    (data.set 0 y).getD 1 [] = data.getD 1 [] := by
  cases data with
  | nil => rfl
  | cons a t => cases t <;> rfl

theorem clipLoop_eq (cs : ClippingStage C) (drive : F32) (stages : Array2 C)
    (count : Nat) (osBlock : AudioBuffer) :
    clipLoop cs drive count 0 stages osBlock
      = perChannel (clipChannel cs drive) stages count osBlock := by
  match count with
  | 0 => rfl
  | 1 => simp [clipLoop, perChannel, Array2.get?, Array2.set, sampleLoop_eq, clipChannel]
  | 2 =>
    simp [clipLoop, perChannel, Array2.get?, Array2.set, sampleLoop_eq, clipChannel,
      getD_set_zero_one]
  | n + 3 =>
    simp [clipLoop, perChannel, Array2.get?, Array2.set]

theorem toneLoop_eq (ts : ToneStage T) (tone : F32) (stages : Array2 T)
    (count : Nat) (buffer : AudioBuffer) :
    toneLoop ts tone count 0 stages buffer
      = perChannel (toneChannel ts tone) stages count buffer := by
  match count with
  | 0 => rfl
  | 1 => simp [toneLoop, perChannel, Array2.get?, Array2.set, toneChannel]
  | 2 =>
    simp [toneLoop, perChannel, Array2.get?, Array2.set, toneChannel, getD_set_zero_one]
  | n + 3 =>
    simp [toneLoop, perChannel, Array2.get?, Array2.set]

theorem process_eq_pipeline (deps : Deps C T O) (s : TSProcessor C T O)
    (buffer : AudioBuffer) : process deps s buffer = pipeline deps s buffer := by
  unfold process pipeline clipAll toneAll upsample downsample levelStage
  dsimp only
  rw [clipLoop_eq]
  cases h : perChannel (clipChannel deps.clipping s.currentDrive) s.clippingStage
      (deps.over.processSamplesUp s.oversampling buffer).2.length
      (deps.over.processSamplesUp s.oversampling buffer).2 with
  | error e => rfl
  | ok clipped =>
    dsimp only [Except.bind]
    rw [toneLoop_eq]
    cases h2 : perChannel (toneChannel deps.tone s.currentTone) s.toneStage buffer.length
        (deps.over.processSamplesDown (deps.over.processSamplesUp s.oversampling buffer).1
          clipped.2 buffer).2 with
    | error e => rfl
    | ok toned => rfl

/-! ## Order facts about the parameter range -/

theorem jlimit_inRange (v : F32) (hv : v.isNaN = false) :
    inRange (jlimit F32.zero F32.ten v) = true := by
  have hz : F32.zero.isNaN = false := by decide
  have ht : F32.ten.isNaN = false := by decide
  have kz : F32.zero.key = 0 := by decide
  have kt : F32.ten.key = 1092616192 := by decide
  unfold jlimit
  by_cases h1 : v.lt F32.zero = true
  · rw [if_pos h1]; decide
  · rw [if_neg h1]
    by_cases h2 : F32.ten.lt v = true
    · rw [if_pos h2]; decide
    · rw [if_neg h2]
      simp only [F32.lt, hv, hz, ht, kz, kt, Bool.not_false, Bool.true_and,
        decide_eq_true_eq] at h1 h2
      simp only [inRange, F32.le, hv, hz, ht, kz, kt, Bool.not_false, Bool.true_and,
        Bool.and_eq_true, decide_eq_true_eq]
      omega

theorem process_params (deps : Deps C T O) (s : TSProcessor C T O) (buffer : AudioBuffer)
    (r : TSProcessor C T O × AudioBuffer) (h : process deps s buffer = .ok r) :
    r.1.currentDrive = s.currentDrive ∧ r.1.currentTone = s.currentTone
      ∧ r.1.currentLevel = s.currentLevel := by
  unfold process at h
  dsimp only at h
  split at h
  · exact absurd h (by simp)
  · split at h
    · exact absurd h (by simp)
    · injection h with h
      subst h
      exact ⟨rfl, rfl, rfl⟩

theorem run_last (deps : Deps C T O) (calls : List Call) :
    ∀ (s s1 : TSProcessor C T O), run deps s calls = .ok s1 →
      s1.currentDrive = lastDrive s.currentDrive calls
        ∧ s1.currentTone = lastTone s.currentTone calls
        ∧ s1.currentLevel = lastLevel s.currentLevel calls := by
  induction calls with
  | nil =>
    intro s s1 h
    simp only [run, Except.ok.injEq] at h
    subst h
    exact ⟨rfl, rfl, rfl⟩
  | cons call rest ih =>
    intro s s1 h
    cases call with
    | prepare spec => exact ih (prepare deps s spec) s1 h
    | reset => exact ih (reset deps s) s1 h
    | setDrive v => exact ih (setDrive s v) s1 h
    | setTone v => exact ih (setTone s v) s1 h
    | setLevel v => exact ih (setLevel s v) s1 h
    | process buffer =>
      simp only [run, step] at h
      cases hp : process deps s buffer with
      | error e => rw [hp] at h; exact absurd h (by simp)
      | ok r =>
        rw [hp] at h
        have hf := process_params deps s buffer r hp
        have := ih r.1 s1 h
        rw [hf.1, hf.2.1, hf.2.2] at this
        exact this

theorem run_inRange (deps : Deps C T O) (calls : List Call) :
    ∀ (s s1 : TSProcessor C T O), (∀ c ∈ calls, c.noNaN = true) →
      inRange s.currentDrive = true → inRange s.currentTone = true →
      inRange s.currentLevel = true → run deps s calls = .ok s1 →
      inRange s1.currentDrive = true ∧ inRange s1.currentTone = true
        ∧ inRange s1.currentLevel = true := by
  induction calls with
  | nil =>
    intro s s1 _ hd ht hl h
    simp only [run, Except.ok.injEq] at h
    subst h
    exact ⟨hd, ht, hl⟩
  | cons call rest ih =>
    intro s s1 hn hd ht hl h
    have hrest : ∀ c ∈ rest, c.noNaN = true := fun c hc => hn c (List.mem_cons_of_mem _ hc)
    have hcall : call.noNaN = true := hn call (List.mem_cons_self _ _)
    cases call with
    | prepare spec => exact ih (prepare deps s spec) s1 hrest hd ht hl h
    | reset => exact ih (reset deps s) s1 hrest hd ht hl h
    | setDrive v =>
      refine ih (setDrive s v) s1 hrest (jlimit_inRange v ?_) ht hl h
      simpa [Call.noNaN] using hcall
    | setTone v =>
      refine ih (setTone s v) s1 hrest hd (jlimit_inRange v ?_) hl h
      simpa [Call.noNaN] using hcall
    | setLevel v =>
      refine ih (setLevel s v) s1 hrest hd ht (jlimit_inRange v ?_) h
      simpa [Call.noNaN] using hcall
    | process buffer =>
      simp only [run, step] at h
      cases hp : process deps s buffer with
      | error e => rw [hp] at h; exact absurd h (by simp)
      | ok r =>
        rw [hp] at h
        have hf := process_params deps s buffer r hp
        exact ih r.1 s1 hrest (by rw [hf.1]; exact hd) (by rw [hf.2.1]; exact ht)
          (by rw [hf.2.2]; exact hl) h

/-- C1: `setDrive(v)` followed by `getCurrentDrive()` returns 0 when `v < 0`, 10 when
`10 < v` and `v` otherwise, and the same holds for tone and level; `setDrive(-5)` gives 0
and `setDrive(50)` gives 10. -/
theorem setter_getter_clamp (s : TSProcessor C T O) (v : F32) :
    getCurrentDrive (setDrive s v)
        = (if v.lt F32.zero then F32.zero else if F32.ten.lt v then F32.ten else v)
      ∧ getCurrentTone (setTone s v)
        = (if v.lt F32.zero then F32.zero else if F32.ten.lt v then F32.ten else v)
      ∧ getCurrentLevel (setLevel s v)
        = (if v.lt F32.zero then F32.zero else if F32.ten.lt v then F32.ten else v)
      ∧ getCurrentDrive (setDrive s F32.minusFive) = F32.zero
      ∧ getCurrentDrive (setDrive s F32.fifty) = F32.ten
      ∧ F32.minusFive.toRat = -5 ∧ F32.fifty.toRat = 50
      ∧ F32.zero.toRat = 0 ∧ F32.ten.toRat = 10 := by
  refine ⟨rfl, rfl, rfl, ?_, ?_, ?_, ?_, ?_, ?_⟩
  · show jlimit F32.zero F32.ten F32.minusFive = F32.zero
    decide
  · show jlimit F32.zero F32.ten F32.fifty = F32.ten
    decide
  · norm_num [F32.toRat, F32.units, F32.sig, F32.scale, F32.expField, F32.manField,
      F32.signBit, F32.minusFive]
  · norm_num [F32.toRat, F32.units, F32.sig, F32.scale, F32.expField, F32.manField,
      F32.signBit, F32.fifty]
  · norm_num [F32.toRat, F32.units, F32.sig, F32.scale, F32.expField, F32.manField,
      F32.signBit, F32.zero]
  · norm_num [F32.toRat, F32.units, F32.sig, F32.scale, F32.expField, F32.manField,
      F32.signBit, F32.ten]

/-- C2: on a freshly constructed processor `setDrive`, `setTone` and `setLevel` called with
a NaN store the NaN, which is not in the range from 0 to 10. -/
theorem setter_nan_out_of_range :
    F32.qNaN.isNaN = true
      ∧ getCurrentDrive (setDrive (TSProcessor.construct Example.deps) F32.qNaN) = F32.qNaN
      ∧ inRange (getCurrentDrive (setDrive (TSProcessor.construct Example.deps) F32.qNaN))
          = false
      ∧ inRange (getCurrentTone (setTone (TSProcessor.construct Example.deps) F32.qNaN))
          = false
      ∧ inRange (getCurrentLevel (setLevel (TSProcessor.construct Example.deps) F32.qNaN))
          = false
      ∧ (run Example.deps (TSProcessor.construct Example.deps) [Call.setDrive F32.qNaN]).toOption.map
          (fun s => inRange s.currentDrive) = some false := by
  decide

/-- C7: after any sequence of calls each getter returns the clamp of the argument of the
most recent call of its own setter, or what it returned before the sequence when that
setter was not called: `prepare`, `reset`, `process` and the other two setters leave it
alone. On a freshly constructed processor the getters return 2, 5 and 7. -/
theorem getters_return_last_set (deps : Deps C T O) (s : TSProcessor C T O)
    (calls : List Call) (s1 : TSProcessor C T O) (h : run deps s calls = .ok s1) :
    getCurrentDrive s1 = lastDrive (getCurrentDrive s) calls
      ∧ getCurrentTone s1 = lastTone (getCurrentTone s) calls
      ∧ getCurrentLevel s1 = lastLevel (getCurrentLevel s) calls
      ∧ getCurrentDrive (TSProcessor.construct deps) = F32.two
      ∧ getCurrentTone (TSProcessor.construct deps) = F32.five
      ∧ getCurrentLevel (TSProcessor.construct deps) = F32.seven :=
  ⟨(run_last deps calls s s1 h).1, (run_last deps calls s s1 h).2.1,
    (run_last deps calls s s1 h).2.2, rfl, rfl, rfl⟩

/-- Witness of C7 on the example collaborators: a freshly constructed processor and a
sequence with every kind of call. -/
theorem getters_return_last_set_witness :
    run Example.deps Example.fresh Example.calls
        = .ok (Example.result
            (reset Example.deps (setTone (Example.result (setDrive Example.prepared F32.fifty)
              Example.stereo).1 F32.minusFive)) Example.mono).1
      ∧ lastDrive F32.two Example.calls = F32.ten
      ∧ lastTone F32.five Example.calls = F32.zero
      ∧ lastLevel F32.seven Example.calls = F32.seven
      ∧ getCurrentDrive (Example.result
            (reset Example.deps (setTone (Example.result (setDrive Example.prepared F32.fifty)
              Example.stereo).1 F32.minusFive)) Example.mono).1
          = lastDrive (getCurrentDrive Example.fresh) Example.calls
      ∧ getCurrentTone (Example.result
            (reset Example.deps (setTone (Example.result (setDrive Example.prepared F32.fifty)
              Example.stereo).1 F32.minusFive)) Example.mono).1
          = lastTone (getCurrentTone Example.fresh) Example.calls
      ∧ getCurrentLevel (Example.result
            (reset Example.deps (setTone (Example.result (setDrive Example.prepared F32.fifty)
              Example.stereo).1 F32.minusFive)) Example.mono).1
          = lastLevel (getCurrentLevel Example.fresh) Example.calls := by
  set_option maxRecDepth 100000 in
  exact ⟨by rfl, by decide, by decide, by decide,
    (getters_return_last_set Example.deps Example.fresh Example.calls _ (by rfl)).1,
    (getters_return_last_set Example.deps Example.fresh Example.calls _ (by rfl)).2.1,
    (getters_return_last_set Example.deps Example.fresh Example.calls _ (by rfl)).2.2.1⟩

/-- C6, counterexample: `prepare` at 44100.1 Hz and a maximum block size of `2 ^ 31` gives
the clipping stages the rate 88200.203125, not twice 44100.1, the tone stages the rate
44100.1015625, and sizes the oversampler for 18446744071562067968 samples. -/
theorem prepare_conversions_counterexample :
    (prepare Example.deps Example.fresh Example.oddSpec).clippingStage.ch0.rate = ⟨0x47AC441A⟩
      ∧ F32.toRat ⟨0x47AC441A⟩ = 88200.203125
      ∧ F32.toRat ⟨0x47AC441A⟩ ≠ 2 * Example.oddSpec.sampleRate.toRat
      ∧ (prepare Example.deps Example.fresh Example.oddSpec).toneStage.ch0.rate = ⟨0x472C441A⟩
      ∧ F32.toRat ⟨0x472C441A⟩ ≠ Example.oddSpec.sampleRate.toRat
      ∧ (prepare Example.deps Example.fresh Example.oddSpec).oversampling.blockSize
          = 18446744071562067968
      ∧ Example.oddSpec.maximumBlockSize = 2147483648 := by
  refine ⟨?_, ?_, ?_, ?_, ?_, ?_, rfl⟩
  · set_option maxRecDepth 100000 in
    set_option exponentiation.threshold 4096 in
    decide
  · norm_num [F32.toRat, F32.units, F32.sig, F32.scale, F32.expField, F32.manField,
      F32.signBit]
  · norm_num [F32.toRat, F32.units, F32.sig, F32.scale, F32.expField, F32.manField,
      F32.signBit, F64.toRat, F64.units, F64.sig, F64.scale, F64.expField, F64.manField,
      F64.signBit, Example.oddSpec]
  · set_option maxRecDepth 100000 in
    set_option exponentiation.threshold 4096 in
    decide
  · norm_num [F32.toRat, F32.units, F32.sig, F32.scale, F32.expField, F32.manField,
      F32.signBit, F64.toRat, F64.units, F64.sig, F64.scale, F64.expField, F64.manField,
      F64.signBit, Example.oddSpec]
  · decide

/-- C6, amended: `prepare` prepares both clipping stages at the single-precision rate
`(float) sampleRate * 2` and both tone stages at `(float) sampleRate`, pushes the stored
drive and tone into them, and sizes the oversampler for the maximum block size converted
through `int` to `size_t`, which is the given size when that is below `2 ^ 31`. -/
theorem prepare_initialises (deps : Deps C T O) (s : TSProcessor C T O) (spec : ProcessSpec) :
    (prepare deps s spec).clippingStage.ch0
        = deps.clipping.setDrive (deps.clipping.prepare s.clippingStage.ch0
            (F32.mul spec.sampleRate.toF32 F32.two)) s.currentDrive
      ∧ (prepare deps s spec).clippingStage.ch1
        = deps.clipping.setDrive (deps.clipping.prepare s.clippingStage.ch1
            (F32.mul spec.sampleRate.toF32 F32.two)) s.currentDrive
      ∧ (prepare deps s spec).toneStage.ch0
        = deps.tone.setTone (deps.tone.prepare s.toneStage.ch0 spec.sampleRate.toF32)
            s.currentTone
      ∧ (prepare deps s spec).toneStage.ch1
        = deps.tone.setTone (deps.tone.prepare s.toneStage.ch1 spec.sampleRate.toF32)
            s.currentTone
      ∧ (prepare deps s spec).oversampling
        = deps.over.initProcessing s.oversampling
            (if spec.maximumBlockSize % 2 ^ 32 < 2 ^ 31 then spec.maximumBlockSize % 2 ^ 32
              else spec.maximumBlockSize % 2 ^ 32 + (2 ^ 64 - 2 ^ 32))
      ∧ (prepare Example.deps Example.fresh Example.spec).clippingStage.ch0.rate = ⟨0x47AC4400⟩
      ∧ F32.toRat ⟨0x47AC4400⟩ = 2 * Example.spec.sampleRate.toRat
      ∧ (prepare Example.deps Example.fresh Example.spec).toneStage.ch0.rate = ⟨0x472C4400⟩
      ∧ F32.toRat ⟨0x472C4400⟩ = Example.spec.sampleRate.toRat
      ∧ (prepare Example.deps Example.fresh Example.spec).oversampling.blockSize = 512 := by
  have hpow : F32.pow2 oversampleFactor = F32.two := by decide
  have hsize : toSizeT (toInt32 spec.maximumBlockSize)
      = (if spec.maximumBlockSize % 2 ^ 32 < 2 ^ 31 then spec.maximumBlockSize % 2 ^ 32
          else spec.maximumBlockSize % 2 ^ 32 + (2 ^ 64 - 2 ^ 32)) := by
    unfold toSizeT toInt32
    split <;> omega
  refine ⟨?_, ?_, ?_, ?_, ?_, ?_, ?_, ?_, ?_, ?_⟩
  · simp only [prepare, hpow]
  · simp only [prepare, hpow]
  · simp only [prepare]
  · simp only [prepare]
  · simp only [prepare, hsize]
  · set_option maxRecDepth 100000 in
    set_option exponentiation.threshold 4096 in
    decide
  · norm_num [F32.toRat, F32.units, F32.sig, F32.scale, F32.expField, F32.manField,
      F32.signBit, F64.toRat, F64.units, F64.sig, F64.scale, F64.expField, F64.manField,
      F64.signBit, Example.spec]
  · set_option maxRecDepth 100000 in
    set_option exponentiation.threshold 4096 in
    decide
  · norm_num [F32.toRat, F32.units, F32.sig, F32.scale, F32.expField, F32.manField,
      F32.signBit, F64.toRat, F64.units, F64.sig, F64.scale, F64.expField, F64.manField,
      F64.signBit, Example.spec]
  · decide

theorem getElem?_set_map (l : AudioBuffer) (i j : Nat) (y : List F32) :
    (l.set i y)[j]? = if i = j then l[j]?.map (fun _ => y) else l[j]? := by
  rw [List.getElem?_set]
  by_cases hij : i = j
  · subst hij
    by_cases hl : i < l.length
    · simp [hl]
    · simp [hl, List.getElem?_eq_none (Nat.le_of_not_lt hl)]
  · simp [hij]

theorem getD_eq (l : AudioBuffer) (i : Nat) : l.getD i [] = (l[i]?).getD [] := by
  simp [List.getD_eq_getElem?_getD]

theorem process_ok_inv (deps : Deps C T O) (s : TSProcessor C T O) (buffer : AudioBuffer)
    (r : TSProcessor C T O × AudioBuffer) (h : process deps s buffer = .ok r) :
    ∃ clipped toned,
      perChannel (clipChannel deps.clipping s.currentDrive) s.clippingStage
          (deps.over.processSamplesUp s.oversampling buffer).2.length
          (deps.over.processSamplesUp s.oversampling buffer).2 = .ok clipped
        ∧ perChannel (toneChannel deps.tone s.currentTone) s.toneStage buffer.length
          (deps.over.processSamplesDown (deps.over.processSamplesUp s.oversampling buffer).1
            clipped.2 buffer).2 = .ok toned
        ∧ r = ({ s with
                  clippingStage := clipped.1
                  toneStage := toned.1
                  oversampling := (deps.over.processSamplesDown
                    (deps.over.processSamplesUp s.oversampling buffer).1 clipped.2 buffer).1 },
                applyGain toned.2 (F32.div s.currentLevel F32.ten)) := by
  rw [process_eq_pipeline] at h
  unfold pipeline clipAll toneAll upsample downsample levelStage at h
  cases hc : perChannel (clipChannel deps.clipping s.currentDrive) s.clippingStage
      (deps.over.processSamplesUp s.oversampling buffer).2.length
      (deps.over.processSamplesUp s.oversampling buffer).2 with
  | error e => rw [hc] at h; exact absurd h (by simp [Except.bind])
  | ok clipped =>
    rw [hc] at h
    dsimp only [Except.bind] at h
    cases ht : perChannel (toneChannel deps.tone s.currentTone) s.toneStage buffer.length
        (deps.over.processSamplesDown (deps.over.processSamplesUp s.oversampling buffer).1
          clipped.2 buffer).2 with
    | error e => rw [ht] at h; exact absurd h (by simp)
    | ok toned =>
      rw [ht] at h
      injection h with h
      exact ⟨clipped, toned, rfl, ht, h.symm⟩

theorem perChannel_agree {α : Type} (f : α → List F32 → α × List F32) (i : Nat) (hi : i < 2)
    (st st2 : Array2 α) (n n2 : Nat) (data data2 : AudioBuffer)
    (hst : st.get? i = st2.get? i) (hdata : data[i]? = data2[i]?) (hn : i < n ↔ i < n2)
    (r r2 : Array2 α × AudioBuffer)
    (h : perChannel f st n data = .ok r) (h2 : perChannel f st2 n2 data2 = .ok r2) :
    r.1.get? i = r2.1.get? i ∧ r.2[i]? = r2.2[i]? := by
  have hi01 : i = 0 ∨ i = 1 := by omega
  rcases hi01 with rfl | rfl
  · simp only [Array2.get?, Option.some.injEq] at hst
    rcases n with _ | _ | _ | n <;> rcases n2 with _ | _ | _ | n2 <;>
      simp only [perChannel, Except.ok.injEq, reduceCtorEq] at h h2 <;>
      first
        | (exfalso; omega)
        | (subst h; subst h2
           simp [Array2.get?, getElem?_set_map, getD_eq, hst, hdata])
  · simp only [Array2.get?, Option.some.injEq] at hst
    rcases n with _ | _ | _ | n <;> rcases n2 with _ | _ | _ | n2 <;>
      simp only [perChannel, Except.ok.injEq, reduceCtorEq] at h h2 <;>
      first
        | (exfalso; omega)
        | (subst h; subst h2
           simp [Array2.get?, getElem?_set_map, getD_eq, hst, hdata])

/-- C9: on an oversampler that treats channel `i` on its own, two runs of `process` on
two-channel buffers that agree on channel `i` of the input, on `clippingStage[i]`,
`toneStage[i]`, the oversampler memory of channel `i` and the parameters give the same
output samples for channel `i` and leave the same `clippingStage[i]`, `toneStage[i]` and
oversampler memory of channel `i`, whatever the other channel holds. -/
theorem channel_independence (deps : Deps C T O) (i : Nat) (hi : i < 2)
    (same : O → O → Prop) (hov : deps.over.ChannelWise i same)
    (s s2 : TSProcessor C T O) (buffer buffer2 : AudioBuffer)
    (hlen : buffer.length = 2) (hlen2 : buffer2.length = 2)
    (hbuf : buffer[i]? = buffer2[i]?)
    (hclip : s.clippingStage.get? i = s2.clippingStage.get? i)
    (htone : s.toneStage.get? i = s2.toneStage.get? i)
    (hos : same s.oversampling s2.oversampling)
    (hd : s.currentDrive = s2.currentDrive) (ht : s.currentTone = s2.currentTone)
    (hl : s.currentLevel = s2.currentLevel)
    (r r2 : TSProcessor C T O × AudioBuffer)
    (hr : process deps s buffer = .ok r) (hr2 : process deps s2 buffer2 = .ok r2) :
    r.2[i]? = r2.2[i]?
      ∧ r.1.clippingStage.get? i = r2.1.clippingStage.get? i
      ∧ r.1.toneStage.get? i = r2.1.toneStage.get? i
      ∧ same r.1.oversampling r2.1.oversampling := by
  obtain ⟨clipped, toned, hc, hto, rfl⟩ := process_ok_inv deps s buffer r hr
  obtain ⟨clipped2, toned2, hc2, hto2, rfl⟩ := process_ok_inv deps s2 buffer2 r2 hr2
  obtain ⟨hUp, hDown⟩ := hov
  obtain ⟨hsame1, hup⟩ := hUp s.oversampling s2.oversampling buffer buffer2 hos hbuf
  rw [← hd] at hc2
  rw [← ht] at hto2
  have hn : i < (deps.over.processSamplesUp s.oversampling buffer).2.length
      ↔ i < (deps.over.processSamplesUp s2.oversampling buffer2).2.length := by
    constructor
    · intro h
      by_contra hcon
      rw [List.getElem?_eq_none (Nat.le_of_not_lt hcon), List.getElem?_eq_getElem h] at hup
      exact absurd hup (by simp)
    · intro h
      by_contra hcon
      rw [List.getElem?_eq_none (Nat.le_of_not_lt hcon), List.getElem?_eq_getElem h] at hup
      exact absurd hup (by simp)
  obtain ⟨hcs, hcd⟩ := perChannel_agree _ i hi _ _ _ _ _ _ hclip hup hn _ _ hc hc2
  obtain ⟨hsame2, hdown⟩ := hDown _ _ _ _ buffer buffer2 hsame1 hcd hbuf
  have hn2 : i < buffer.length ↔ i < buffer2.length := by rw [hlen, hlen2]
  obtain ⟨hts, htd⟩ := perChannel_agree _ i hi _ _ _ _ _ _ htone hdown hn2 _ _ hto hto2
  refine ⟨?_, hcs, hts, hsame2⟩
  simp only [applyGain, List.getElem?_map, htd, hl]

theorem Example.over_channelWise_zero : Example.over.ChannelWise 0 Example.sameZero := by
  constructor
  · intro o o2 b b2 hs hb
    obtain ⟨hr, hk⟩ := hs
    simp only [Example.over]
    rw [← hr]
    cases o.ready with
    | false => exact ⟨⟨hr, hk⟩, rfl⟩
    | true =>
      refine ⟨⟨hr, hk⟩, ?_⟩
      cases b with
      | nil =>
        cases b2 with
        | nil => rfl
        | cons x xs => simp at hb
      | cons x xs =>
        cases b2 with
        | nil => simp at hb
        | cons x2 xs2 =>
          simp only [List.getElem?_cons_zero, Option.some.injEq] at hb
          subst hb
          simp
  · intro o o2 y y2 d d2 hs hy hd
    obtain ⟨hr, hk⟩ := hs
    have hy0 : y.getD 0 [] = y2.getD 0 [] := by rw [getD_eq, getD_eq, hy]
    simp only [Example.over]
    rw [← hr, ← hk, hy0]
    cases o.ready with
    | false => exact ⟨⟨hr, hk⟩, hd⟩
    | true =>
      refine ⟨⟨rfl, rfl⟩, ?_⟩
      cases d with
      | nil =>
        cases d2 with
        | nil => rfl
        | cons x xs => simp at hd
      | cons x xs =>
        cases d2 with
        | nil => simp at hd
        | cons x2 xs2 => simp

/-- Witness of C9 on the example collaborators: channel 0 of two runs that differ in the
input and the stage memory of channel 1. -/
theorem channel_independence_witness :
    Example.stereo[1]? ≠ Example.stereo2[1]?
      ∧ Example.prepared.clippingStage.ch1 ≠ Example.other.clippingStage.ch1
      ∧ (Example.result Example.prepared Example.stereo).2[0]?
          = (Example.result Example.other Example.stereo2).2[0]?
      ∧ (Example.result Example.prepared Example.stereo).1.clippingStage.get? 0
          = (Example.result Example.other Example.stereo2).1.clippingStage.get? 0
      ∧ (Example.result Example.prepared Example.stereo).1.toneStage.get? 0
          = (Example.result Example.other Example.stereo2).1.toneStage.get? 0
      ∧ Example.sameZero (Example.result Example.prepared Example.stereo).1.oversampling
          (Example.result Example.other Example.stereo2).1.oversampling := by
  set_option maxRecDepth 100000 in
  exact ⟨by decide, by decide,
    channel_independence Example.deps 0 (by decide) Example.sameZero
      Example.over_channelWise_zero Example.prepared Example.other Example.stereo
      Example.stereo2 rfl rfl rfl rfl rfl ⟨rfl, rfl⟩ rfl rfl rfl _ _ (by rfl) (by rfl)⟩

end TubeScreamer
